import Mathlib

/-!
Verification of the `x86_vcpu` crate against its specification.

This file gives a shallow embedding, in Lean 4, of the pure parts of the
crate that the specification's testable properties talk about:

- `src/vmx/definitions.rs`: `VmxInstructionError::as_str`, the
  `VmxExitReason` numeric enumeration and its fallible decoder, and
  `VmxInterruptionType` with `vector_has_error_code` and `from_vector`;
- `src/regs.rs` and `src/regs/accessors.rs`: the `GeneralRegisters`
  register file, its indexed accessors, the macro-generated sub-width
  getters/setters, and `get_edx_eax`;
- `src/regs/diff.rs`: the register-diff debug listing;
- `src/frame.rs`: `PhysFrame::alloc`.

Machine integers (`u8`, `u32`, `u64`) are embedded as `Nat`, with explicit
bounds (`< 2 ^ 8`, `< 2 ^ 32`, `< 2 ^ 64`) as hypotheses where a theorem
needs them; Rust's `!mask` on `u64` is embedded as `(2 ^ 64 - 1) ^^^ mask`.
Code paths that panic in Rust (out-of-range register index, a failed
`assert!`) are embedded as `Option`, with `none` standing for the panic.
-/

/-! ## Interrupt vector constants

Numeric values of the interrupt-vector constants that
`src/vmx/definitions.rs` imports from the `x86` crate (`x86::irq`).
They are the architectural exception vector numbers of the Intel SDM.
-/

/-- Vector of the debug exception, `x86::irq::DEBUG_VECTOR`. -/
def DEBUG_VECTOR : Nat := 1

/-- Vector of the NMI, `x86::irq::NONMASKABLE_INTERRUPT_VECTOR`. -/
def NONMASKABLE_INTERRUPT_VECTOR : Nat := 2

/-- Vector of the breakpoint exception, `x86::irq::BREAKPOINT_VECTOR`. -/
def BREAKPOINT_VECTOR : Nat := 3

/-- Vector of the overflow exception, `x86::irq::OVERFLOW_VECTOR`. -/
def OVERFLOW_VECTOR : Nat := 4

/-- Vector of the double-fault exception, `x86::irq::DOUBLE_FAULT_VECTOR`. -/
def DOUBLE_FAULT_VECTOR : Nat := 8

/-- Vector of the invalid-TSS exception, `x86::irq::INVALID_TSS_VECTOR`. -/
def INVALID_TSS_VECTOR : Nat := 10

/-- Vector of the segment-not-present exception,
`x86::irq::SEGMENT_NOT_PRESENT_VECTOR`. -/
def SEGMENT_NOT_PRESENT_VECTOR : Nat := 11

/-- Vector of the stack-segment-fault exception,
`x86::irq::STACK_SEGEMENT_FAULT_VECTOR` (sic, the crate's spelling). -/
def STACK_SEGEMENT_FAULT_VECTOR : Nat := 12

/-- Vector of the general-protection fault,
`x86::irq::GENERAL_PROTECTION_FAULT_VECTOR`. -/
def GENERAL_PROTECTION_FAULT_VECTOR : Nat := 13

/-- Vector of the page fault, `x86::irq::PAGE_FAULT_VECTOR`. -/
def PAGE_FAULT_VECTOR : Nat := 14

/-- Vector of the alignment-check exception,
`x86::irq::ALIGNMENT_CHECK_VECTOR`. -/
def ALIGNMENT_CHECK_VECTOR : Nat := 17

/-- Vector of the virtualization exception,
`x86::irq::VIRTUALIZATION_VECTOR`. -/
def VIRTUALIZATION_VECTOR : Nat := 20

/-! ## `VmxInterruptionType` (`src/vmx/definitions.rs`) -/

/-- The interruption type (bits 10:8) in the VM-Entry/VM-Exit
Interruption-Information Field, `VmxInterruptionType` in
`src/vmx/definitions.rs`. -/
inductive VmxInterruptionType where
  /-- External interrupt, discriminant 0. -/
  | External
  /-- Reserved, discriminant 1. -/
  | Reserved
  /-- Non-maskable interrupt, discriminant 2. -/
  | NMI
  /-- Hardware exception, discriminant 3. -/
  | HardException
  /-- Software interrupt, discriminant 4. -/
  | SoftIntr
  /-- Privileged software exception, discriminant 5. -/
  | PrivSoftException
  /-- Software exception, discriminant 6. -/
  | SoftException
  /-- Other event, discriminant 7. -/
  | Other
deriving DecidableEq

/-- Embedding of `VmxInterruptionType::vector_has_error_code`: whether the
exception/interrupt with the given vector has an error code. The Rust body
is a `matches!` against seven named vector constants. -/
def VmxInterruptionType.vector_has_error_code (vector : Nat) : Bool :=
  vector == DOUBLE_FAULT_VECTOR
    || vector == INVALID_TSS_VECTOR
    || vector == SEGMENT_NOT_PRESENT_VECTOR
    || vector == STACK_SEGEMENT_FAULT_VECTOR
    || vector == GENERAL_PROTECTION_FAULT_VECTOR
    || vector == PAGE_FAULT_VECTOR
    || vector == ALIGNMENT_CHECK_VECTOR

/-- Embedding of `VmxInterruptionType::from_vector`: determine the
interruption type from the interrupt vector. The Rust body is a `match`
whose arms are, in order: `DEBUG_VECTOR`, `NONMASKABLE_INTERRUPT_VECTOR`,
`BREAKPOINT_VECTOR | OVERFLOW_VECTOR`, `0..=VIRTUALIZATION_VECTOR`,
`32..=255`, and a default arm; the if-chain below keeps that order.
The vector is a `u8`, embedded as a `Nat` expected to be below 256. -/
def VmxInterruptionType.from_vector (vector : Nat) : VmxInterruptionType :=
  if vector = DEBUG_VECTOR then .PrivSoftException
  else if vector = NONMASKABLE_INTERRUPT_VECTOR then .NMI
  else if vector = BREAKPOINT_VECTOR ∨ vector = OVERFLOW_VECTOR then .SoftException
  else if vector ≤ VIRTUALIZATION_VECTOR then .HardException
  else if 32 ≤ vector ∧ vector ≤ 255 then .External
  else .Other

/-- C1: the claim says vectors 5–21 map to `HardException` and 22–31 to
`Other`; the code's range arm is `0..=VIRTUALIZATION_VECTOR` where
`VIRTUALIZATION_VECTOR = 20`, so vector 21 falls through to `Other`,
although the code's own comment (citing SDM Vol. 3A, Section 6.15) says
all vectors from 0 to 21 are exceptions. This theorem evaluates the code
at the failing input 21. -/
theorem from_vector_vector21_other :
    VmxInterruptionType.from_vector 21 = VmxInterruptionType.Other ∧
      VmxInterruptionType.from_vector 21 ≠ VmxInterruptionType.HardException := by
  decide

set_option maxRecDepth 2048 in
/-- C3: `vector_has_error_code` returns true for exactly the vectors
8, 10, 11, 12, 13, 14 and 17, and false for every other vector in 0–255. -/
theorem vector_has_error_code_iff :
    ∀ v : Nat, v < 256 →
      (VmxInterruptionType.vector_has_error_code v = true ↔
        v = 8 ∨ v = 10 ∨ v = 11 ∨ v = 12 ∨ v = 13 ∨ v = 14 ∨ v = 17) := by
  decide

/-- Witness for C3 at the concrete vector 8. -/
theorem vector_has_error_code_iff_witness :
    VmxInterruptionType.vector_has_error_code 8 = true :=
  (vector_has_error_code_iff 8 (by decide)).mpr (Or.inl rfl)

/-! ## `VmxInstructionError` (`src/vmx/definitions.rs`) -/

/-- VM instruction error number, the `VmxInstructionError` newtype over
`u32` in `src/vmx/definitions.rs`. -/
structure VmxInstructionError where
  /-- The raw error number (field `.0` in the Rust struct). -/
  code : Nat

/-- Embedding of `VmxInstructionError::as_str`. The Rust body is a `match`
on the raw `u32` with one arm per documented error number and a default
arm returning the placeholder; the if-chain below lists the arms in the
source order. -/
def VmxInstructionError.as_str (e : VmxInstructionError) : String :=
  if e.code = 0 then "OK"
  else if e.code = 1 then "VMCALL executed in VMX root operation"
  else if e.code = 2 then "VMCLEAR with invalid physical address"
  else if e.code = 3 then "VMCLEAR with VMXON pointer"
  else if e.code = 4 then "VMLAUNCH with non-clear VMCS"
  else if e.code = 5 then "VMRESUME with non-launched VMCS"
  else if e.code = 6 then "VMRESUME after VMXOFF (VMXOFF and VMXON between VMLAUNCH and VMRESUME)"
  else if e.code = 7 then "VM entry with invalid control field(s)"
  else if e.code = 8 then "VM entry with invalid host-state field(s)"
  else if e.code = 9 then "VMPTRLD with invalid physical address"
  else if e.code = 10 then "VMPTRLD with VMXON pointer"
  else if e.code = 11 then "VMPTRLD with incorrect VMCS revision identifier"
  else if e.code = 12 then "VMREAD/VMWRITE from/to unsupported VMCS component"
  else if e.code = 13 then "VMWRITE to read-only VMCS component"
  else if e.code = 15 then "VMXON executed in VMX root operation"
  else if e.code = 16 then "VM entry with invalid executive-VMCS pointer"
  else if e.code = 17 then "VM entry with non-launched executive VMCS"
  else if e.code = 18 then "VM entry with executive-VMCS pointer not VMXON pointer (when attempting to deactivate the dual-monitor treatment of SMIs and SMM)"
  else if e.code = 19 then "VMCALL with non-clear VMCS (when attempting to activate the dual-monitor treatment of SMIs and SMM)"
  else if e.code = 20 then "VMCALL with invalid VM-exit control fields"
  else if e.code = 22 then "VMCALL with incorrect MSEG revision identifier (when attempting to activate the dual-monitor treatment of SMIs and SMM)"
  else if e.code = 23 then "VMXOFF under dual-monitor treatment of SMIs and SMM"
  else if e.code = 24 then "VMCALL with invalid SMM-monitor features (when attempting to activate the dual-monitor treatment of SMIs and SMM)"
  else if e.code = 25 then "VM entry with invalid VM-execution control fields in executive VMCS (when attempting to return from SMM)"
  else if e.code = 26 then "VM entry with events blocked by MOV SS"
  else if e.code = 28 then "Invalid operand to INVEPT/INVVPID"
  else "[INVALID]"

/-- The error numbers that have an arm of their own in
`VmxInstructionError::as_str` (every other number falls to the default
arm). -/
def instructionErrorCodes : List Nat :=
  [0, 1, 2, 3, 4, 5, 6, 7, 8, 9, 10, 11, 12, 13,
   15, 16, 17, 18, 19, 20, 22, 23, 24, 25, 26, 28]

/-- Any error number outside `instructionErrorCodes` renders as the
placeholder string. -/
lemma as_str_of_not_mem (n : Nat) (h : n ∉ instructionErrorCodes) :
    (VmxInstructionError.mk n).as_str = "[INVALID]" := by
  simp only [instructionErrorCodes, List.mem_cons, List.not_mem_nil, or_false, not_or] at h
  obtain ⟨h0, h1, h2, h3, h4, h5, h6, h7, h8, h9, h10, h11, h12, h13,
    h15, h16, h17, h18, h19, h20, h22, h23, h24, h25, h26, h28⟩ := h
  simp [VmxInstructionError.as_str, h0, h1, h2, h3, h4, h5, h6, h7, h8, h9,
    h10, h11, h12, h13, h15, h16, h17, h18, h19, h20, h22, h23, h24, h25,
    h26, h28]

/-- C7: `as_str` is a total function of the 32-bit code (so it cannot
panic); code 0 renders as "OK" and only code 0 does; every code with an
arm in the table renders as something other than the placeholder; every
code without an arm renders as the placeholder "[INVALID]". -/
theorem as_str_spec :
    ∀ n : Nat, n < 2 ^ 32 →
      ((VmxInstructionError.mk n).as_str = "OK" ↔ n = 0) ∧
      (n ∈ instructionErrorCodes →
        (VmxInstructionError.mk n).as_str ≠ "[INVALID]") ∧
      (n ∉ instructionErrorCodes →
        (VmxInstructionError.mk n).as_str = "[INVALID]") := by
  intro n _
  by_cases hmem : n ∈ instructionErrorCodes
  · refine ?_
    fin_cases hmem <;>
      exact ⟨by decide, fun _ => by decide, fun h => absurd (by decide) h⟩
  · refine ⟨?_, fun h => absurd h hmem, fun _ => as_str_of_not_mem n hmem⟩
    rw [as_str_of_not_mem n hmem]
    constructor
    · intro h
      exact absurd h (by decide)
    · intro h
      subst h
      exact absurd (show 0 ∈ instructionErrorCodes by decide) hmem

/-- Witness for C7 at the concrete codes 5 (a mapped code) and 0. -/
theorem as_str_spec_witness :
    (VmxInstructionError.mk 5).as_str ≠ "[INVALID]" ∧
      (VmxInstructionError.mk 0).as_str = "OK" :=
  ⟨(as_str_spec 5 (by norm_num)).2.1 (by decide),
   (as_str_spec 0 (by norm_num)).1.mpr rfl⟩

/-! ## `VmxExitReason` (`src/vmx/definitions.rs`) -/

/-- VMX basic exit reasons, the `VmxExitReason` enum in
`src/vmx/definitions.rs` (SDM Vol. 3D, Appendix C). The numeric
discriminant of each variant is given by `VmxExitReason.as_u32`. -/
inductive VmxExitReason where
  | EXCEPTION_NMI
  | EXTERNAL_INTERRUPT
  | TRIPLE_FAULT
  | INIT
  | SIPI
  | SMI
  | OTHER_SMI
  | INTERRUPT_WINDOW
  | NMI_WINDOW
  | TASK_SWITCH
  | CPUID
  | GETSEC
  | HLT
  | INVD
  | INVLPG
  | RDPMC
  | RDTSC
  | RSM
  | VMCALL
  | VMCLEAR
  | VMLAUNCH
  | VMPTRLD
  | VMPTRST
  | VMREAD
  | VMRESUME
  | VMWRITE
  | VMOFF
  | VMON
  | CR_ACCESS
  | DR_ACCESS
  | IO_INSTRUCTION
  | MSR_READ
  | MSR_WRITE
  | INVALID_GUEST_STATE
  | MSR_LOAD_FAIL
  | MWAIT_INSTRUCTION
  | MONITOR_TRAP_FLAG
  | MONITOR_INSTRUCTION
  | PAUSE_INSTRUCTION
  | MCE_DURING_VMENTRY
  | TPR_BELOW_THRESHOLD
  | APIC_ACCESS
  | VIRTUALIZED_EOI
  | GDTR_IDTR
  | LDTR_TR
  | EPT_VIOLATION
  | EPT_MISCONFIG
  | INVEPT
  | RDTSCP
  | PREEMPTION_TIMER
  | INVVPID
  | WBINVD
  | XSETBV
  | APIC_WRITE
  | RDRAND
  | INVPCID
  | VMFUNC
  | ENCLS
  | RDSEED
  | PML_FULL
  | XSAVES
  | XRSTORS
  | PCONFIG
  | SPP_EVENT
  | UMWAIT
  | TPAUSE
  | LOADIWKEY
deriving DecidableEq

/-- The `repr(u32)` discriminant assigned to each `VmxExitReason` variant
in the source enum. -/
def VmxExitReason.as_u32 : VmxExitReason → Nat
  | .EXCEPTION_NMI => 0
  | .EXTERNAL_INTERRUPT => 1
  | .TRIPLE_FAULT => 2
  | .INIT => 3
  | .SIPI => 4
  | .SMI => 5
  | .OTHER_SMI => 6
  | .INTERRUPT_WINDOW => 7
  | .NMI_WINDOW => 8
  | .TASK_SWITCH => 9
  | .CPUID => 10
  | .GETSEC => 11
  | .HLT => 12
  | .INVD => 13
  | .INVLPG => 14
  | .RDPMC => 15
  | .RDTSC => 16
  | .RSM => 17
  | .VMCALL => 18
  | .VMCLEAR => 19
  | .VMLAUNCH => 20
  | .VMPTRLD => 21
  | .VMPTRST => 22
  | .VMREAD => 23
  | .VMRESUME => 24
  | .VMWRITE => 25
  | .VMOFF => 26
  | .VMON => 27
  | .CR_ACCESS => 28
  | .DR_ACCESS => 29
  | .IO_INSTRUCTION => 30
  | .MSR_READ => 31
  | .MSR_WRITE => 32
  | .INVALID_GUEST_STATE => 33
  | .MSR_LOAD_FAIL => 34
  | .MWAIT_INSTRUCTION => 36
  | .MONITOR_TRAP_FLAG => 37
  | .MONITOR_INSTRUCTION => 39
  | .PAUSE_INSTRUCTION => 40
  | .MCE_DURING_VMENTRY => 41
  | .TPR_BELOW_THRESHOLD => 43
  | .APIC_ACCESS => 44
  | .VIRTUALIZED_EOI => 45
  | .GDTR_IDTR => 46
  | .LDTR_TR => 47
  | .EPT_VIOLATION => 48
  | .EPT_MISCONFIG => 49
  | .INVEPT => 50
  | .RDTSCP => 51
  | .PREEMPTION_TIMER => 52
  | .INVVPID => 53
  | .WBINVD => 54
  | .XSETBV => 55
  | .APIC_WRITE => 56
  | .RDRAND => 57
  | .INVPCID => 58
  | .VMFUNC => 59
  | .ENCLS => 60
  | .RDSEED => 61
  | .PML_FULL => 62
  | .XSAVES => 63
  | .XRSTORS => 64
  | .PCONFIG => 65
  | .SPP_EVENT => 66
  | .UMWAIT => 67
  | .TPAUSE => 68
  | .LOADIWKEY => 69

/-- Embedding of the fallible decoder that the `numeric_enum!` macro
derives for `VmxExitReason` (its `TryFrom` of `u32` implementation):
each defined discriminant decodes to its variant, every other value is a
decode failure, embedded as `none`. -/
def VmxExitReason.try_from (value : Nat) : Option VmxExitReason :=
  if value = 0 then some .EXCEPTION_NMI
  else if value = 1 then some .EXTERNAL_INTERRUPT
  else if value = 2 then some .TRIPLE_FAULT
  else if value = 3 then some .INIT
  else if value = 4 then some .SIPI
  else if value = 5 then some .SMI
  else if value = 6 then some .OTHER_SMI
  else if value = 7 then some .INTERRUPT_WINDOW
  else if value = 8 then some .NMI_WINDOW
  else if value = 9 then some .TASK_SWITCH
  else if value = 10 then some .CPUID
  else if value = 11 then some .GETSEC
  else if value = 12 then some .HLT
  else if value = 13 then some .INVD
  else if value = 14 then some .INVLPG
  else if value = 15 then some .RDPMC
  else if value = 16 then some .RDTSC
  else if value = 17 then some .RSM
  else if value = 18 then some .VMCALL
  else if value = 19 then some .VMCLEAR
  else if value = 20 then some .VMLAUNCH
  else if value = 21 then some .VMPTRLD
  else if value = 22 then some .VMPTRST
  else if value = 23 then some .VMREAD
  else if value = 24 then some .VMRESUME
  else if value = 25 then some .VMWRITE
  else if value = 26 then some .VMOFF
  else if value = 27 then some .VMON
  else if value = 28 then some .CR_ACCESS
  else if value = 29 then some .DR_ACCESS
  else if value = 30 then some .IO_INSTRUCTION
  else if value = 31 then some .MSR_READ
  else if value = 32 then some .MSR_WRITE
  else if value = 33 then some .INVALID_GUEST_STATE
  else if value = 34 then some .MSR_LOAD_FAIL
  else if value = 36 then some .MWAIT_INSTRUCTION
  else if value = 37 then some .MONITOR_TRAP_FLAG
  else if value = 39 then some .MONITOR_INSTRUCTION
  else if value = 40 then some .PAUSE_INSTRUCTION
  else if value = 41 then some .MCE_DURING_VMENTRY
  else if value = 43 then some .TPR_BELOW_THRESHOLD
  else if value = 44 then some .APIC_ACCESS
  else if value = 45 then some .VIRTUALIZED_EOI
  else if value = 46 then some .GDTR_IDTR
  else if value = 47 then some .LDTR_TR
  else if value = 48 then some .EPT_VIOLATION
  else if value = 49 then some .EPT_MISCONFIG
  else if value = 50 then some .INVEPT
  else if value = 51 then some .RDTSCP
  else if value = 52 then some .PREEMPTION_TIMER
  else if value = 53 then some .INVVPID
  else if value = 54 then some .WBINVD
  else if value = 55 then some .XSETBV
  else if value = 56 then some .APIC_WRITE
  else if value = 57 then some .RDRAND
  else if value = 58 then some .INVPCID
  else if value = 59 then some .VMFUNC
  else if value = 60 then some .ENCLS
  else if value = 61 then some .RDSEED
  else if value = 62 then some .PML_FULL
  else if value = 63 then some .XSAVES
  else if value = 64 then some .XRSTORS
  else if value = 65 then some .PCONFIG
  else if value = 66 then some .SPP_EVENT
  else if value = 67 then some .UMWAIT
  else if value = 68 then some .TPAUSE
  else if value = 69 then some .LOADIWKEY
  else none

set_option maxRecDepth 8192 in
/-- C2: decoding a numeric exit-reason code 0–69 succeeds exactly on the
codes defined in the table and then yields the variant with that
discriminant (the codes 35, 38 and 42 are the undefined ones in the range
and fail to decode); moreover decoding is a left inverse of the
discriminant assignment, so each defined code yields precisely its
correspondingly named variant. -/
theorem try_from_spec :
    (∀ n : Nat, n < 70 →
      (VmxExitReason.try_from n).map VmxExitReason.as_u32 =
        if n = 35 ∨ n = 38 ∨ n = 42 then none else some n) ∧
    (∀ r : VmxExitReason, VmxExitReason.try_from r.as_u32 = some r) := by
  constructor
  · decide
  · intro r
    cases r <;> rfl

/-- Witness for C2 at the concrete codes 35 (undefined, decode failure)
and 48 (defined, decodes to the variant with discriminant 48). -/
theorem try_from_spec_witness :
    (VmxExitReason.try_from 35).map VmxExitReason.as_u32 = none ∧
      (VmxExitReason.try_from 48).map VmxExitReason.as_u32 = some 48 := by
  have h35 := try_from_spec.1 35 (by decide)
  have h48 := try_from_spec.1 48 (by decide)
  simp only [if_pos (Or.inl rfl)] at h35
  rw [if_neg (by decide)] at h48
  exact ⟨h35, h48⟩

/-! ## `GeneralRegisters` (`src/regs.rs`, `src/regs/accessors.rs`) -/

/-- General-purpose registers for the 64-bit x86 architecture, the
`GeneralRegisters` struct in `src/regs.rs`. Each field is a `u64`,
embedded as a `Nat`; `unused_rsp` embeds the private `_unused_rsp`
padding slot. -/
structure GeneralRegisters where
  rax : Nat
  rcx : Nat
  rdx : Nat
  rbx : Nat
  unused_rsp : Nat
  rbp : Nat
  rsi : Nat
  rdi : Nat
  r8 : Nat
  r9 : Nat
  r10 : Nat
  r11 : Nat
  r12 : Nat
  r13 : Nat
  r14 : Nat
  r15 : Nat
deriving DecidableEq

/-- Embedding of `GeneralRegisters::get_reg_of_index`. The Rust body is a
`match` on the index with arms 0–3 and 5–15 returning the corresponding
field and a default arm that panics; the panic is embedded as `none`. -/
def GeneralRegisters.get_reg_of_index (r : GeneralRegisters) (index : Nat) : Option Nat :=
  if index = 0 then some r.rax
  else if index = 1 then some r.rcx
  else if index = 2 then some r.rdx
  else if index = 3 then some r.rbx
  else if index = 5 then some r.rbp
  else if index = 6 then some r.rsi
  else if index = 7 then some r.rdi
  else if index = 8 then some r.r8
  else if index = 9 then some r.r9
  else if index = 10 then some r.r10
  else if index = 11 then some r.r11
  else if index = 12 then some r.r12
  else if index = 13 then some r.r13
  else if index = 14 then some r.r14
  else if index = 15 then some r.r15
  else none

/-- Embedding of `GeneralRegisters::set_reg_of_index`. The Rust body is a
`match` on the index with arms 0–3 and 5–15 assigning the corresponding
field and a default arm that panics; the panic is embedded as `none`. -/
def GeneralRegisters.set_reg_of_index (r : GeneralRegisters) (index value : Nat) :
    Option GeneralRegisters :=
  if index = 0 then some { r with rax := value }
  else if index = 1 then some { r with rcx := value }
  else if index = 2 then some { r with rdx := value }
  else if index = 3 then some { r with rbx := value }
  else if index = 5 then some { r with rbp := value }
  else if index = 6 then some { r with rsi := value }
  else if index = 7 then some { r with rdi := value }
  else if index = 8 then some { r with r8 := value }
  else if index = 9 then some { r with r9 := value }
  else if index = 10 then some { r with r10 := value }
  else if index = 11 then some { r with r11 := value }
  else if index = 12 then some { r with r12 := value }
  else if index = 13 then some { r with r13 := value }
  else if index = 14 then some { r with r14 := value }
  else if index = 15 then some { r with r15 := value }
  else none

/-- C4: for every register index in 0–3 and 5–15 and every 64-bit value,
an indexed set followed by an indexed get at the same index returns the
value just written; for index 4 and every larger index up to the `u8`
range, both the indexed get and the indexed set take the panicking
default arm (embedded as `none`) instead of touching any register. -/
theorem reg_of_index_roundtrip (r : GeneralRegisters) (index v : Nat)
    (hidx : index < 256) (_hv : v < 2 ^ 64) :
    (index < 16 ∧ index ≠ 4 →
      ∃ rr, r.set_reg_of_index index v = some rr ∧
        rr.get_reg_of_index index = some v) ∧
    (index = 4 ∨ 15 < index →
      r.set_reg_of_index index v = none ∧ r.get_reg_of_index index = none) := by
  constructor
  · rintro ⟨h16, h4⟩
    interval_cases index <;> first
      | omega
      | exact ⟨_, rfl, rfl⟩
  · rintro (h | h)
    · subst h
      exact ⟨rfl, rfl⟩
    · constructor
      · rw [GeneralRegisters.set_reg_of_index]
        iterate 15 rw [if_neg (by omega)]
      · rw [GeneralRegisters.get_reg_of_index]
        iterate 15 rw [if_neg (by omega)]

/-- Witness for C4 at index 3 and index 4 on a concrete register file. -/
theorem reg_of_index_roundtrip_witness :
    (∃ rr, GeneralRegisters.set_reg_of_index ⟨0, 0, 0, 0, 0, 0, 0, 0, 0, 0, 0, 0, 0, 0, 0, 0⟩ 3 42 = some rr ∧
      rr.get_reg_of_index 3 = some 42) ∧
    (GeneralRegisters.set_reg_of_index ⟨0, 0, 0, 0, 0, 0, 0, 0, 0, 0, 0, 0, 0, 0, 0, 0⟩ 4 42 = none ∧
      GeneralRegisters.get_reg_of_index ⟨0, 0, 0, 0, 0, 0, 0, 0, 0, 0, 0, 0, 0, 0, 0, 0⟩ 4 = none) :=
  ⟨(reg_of_index_roundtrip _ 3 42 (by norm_num) (by norm_num)).1 (by norm_num),
   (reg_of_index_roundtrip _ 4 42 (by norm_num) (by norm_num)).2 (Or.inl rfl)⟩

/-! ## Sub-width register views (`src/regs/accessors.rs`)

The `define_reg_getter_setters!` macro generates, for every view, a getter
and a setter from two fixed templates (`__impl_getter` and
`__impl_setter`), parameterised by the backing field, the bit range
`bits_start..bits_end`, and the `clear_other_bits` policy. `getterBits`
and `setterBits` embed those two templates; each generated accessor is
then the template applied to its field and parameters.
-/

/-- The getter template `__impl_getter`: shift the backing field right by
`bits_start`, then mask to the view's width. -/
def getterBits (src bits_start bits_end : Nat) : Nat :=
  (src >>> bits_start) &&& ((1 <<< (bits_end - bits_start)) - 1)

/-- The setter template `__impl_setter`: when `clear_other_bits` is true
the backing field becomes the value shifted into place (all other bits
cleared); otherwise the bits of the view's range are replaced and all
other bits of the field are kept (`self.from &= !MASK; self.from |= value
<< bits_start` on `u64`, with the `u64` negation embedded as xor against
`2 ^ 64 - 1`). -/
def setterBits (old value bits_start bits_end : Nat) (clear_other_bits : Bool) : Nat :=
  if clear_other_bits then value <<< bits_start
  else
    (old &&& (((1 <<< 64) - 1) ^^^ (((1 <<< (bits_end - bits_start)) - 1) <<< bits_start)))
      ||| (value <<< bits_start)

/-- A getter for bits `0..w` is reduction modulo `2 ^ w`. -/
lemma getterBits_from_zero (x w : Nat) : getterBits x 0 w = x % 2 ^ w := by
  rw [getterBits, Nat.shiftRight_zero, Nat.sub_zero, Nat.shiftLeft_eq, one_mul,
    Nat.and_pow_two_sub_one_eq_mod]

/-- Recombination of a shifted high part with a low part below the shift
amount is plain arithmetic. -/
lemma shiftLeft_lor_eq_add (a b n : Nat) (hb : b < 2 ^ n) :
    ((a <<< n) ||| b) = a * 2 ^ n + b := by
  have hb2 : ∀ i, n ≤ i → b.testBit i = false := fun i hi =>
    Nat.testBit_lt_two_pow (lt_of_lt_of_le hb (Nat.pow_le_pow_right (by norm_num) hi))
  apply Nat.eq_of_testBit_eq
  intro i
  rw [Nat.testBit_or, Nat.testBit_shiftLeft,
    show a * 2 ^ n + b = 2 ^ n * a + b by ring,
    Nat.testBit_mul_pow_two_add a hb i]
  by_cases h : i < n
  · simp [Nat.not_le.mpr h, h]
  · simp [Nat.le_of_not_lt h, h, hb2 i (Nat.le_of_not_lt h)]

/-- The "eax" view, bits 0..32 of `rax` (generated getter). -/
def GeneralRegisters.eax (r : GeneralRegisters) : Nat := getterBits r.rax 0 32

/-- The "edx" view, bits 0..32 of `rdx` (generated getter). -/
def GeneralRegisters.edx (r : GeneralRegisters) : Nat := getterBits r.rdx 0 32

/-- Embedding of `GeneralRegisters::get_edx_eax`: the value of the
`edx:eax` register pair, `(edx as u64) << 32 | eax as u64`. -/
def GeneralRegisters.get_edx_eax (r : GeneralRegisters) : Nat :=
  (r.edx <<< 32) ||| r.eax

/-- C10: `get_edx_eax` returns the low 32 bits of `rdx` in the upper half
and the low 32 bits of `rax` in the lower half, that is
`(rdx mod 2^32) * 2^32 + (rax mod 2^32)`; the register file is read but
never modified (the embedding is a pure function of the register file). -/
theorem get_edx_eax_spec (r : GeneralRegisters) :
    r.get_edx_eax = (r.rdx % 2 ^ 32) * 2 ^ 32 + r.rax % 2 ^ 32 := by
  rw [GeneralRegisters.get_edx_eax, GeneralRegisters.edx, GeneralRegisters.eax,
    getterBits_from_zero, getterBits_from_zero,
    shiftLeft_lor_eq_add _ _ _ (Nat.mod_lt _ (by norm_num))]

/-- The 32-bit setters (generated with `clear_other_bits = true`). -/
def GeneralRegisters.set_eax (r : GeneralRegisters) (value : Nat) : GeneralRegisters :=
  { r with rax := setterBits r.rax value 0 32 true }

def GeneralRegisters.set_ecx (r : GeneralRegisters) (value : Nat) : GeneralRegisters :=
  { r with rcx := setterBits r.rcx value 0 32 true }

def GeneralRegisters.set_edx (r : GeneralRegisters) (value : Nat) : GeneralRegisters :=
  { r with rdx := setterBits r.rdx value 0 32 true }

def GeneralRegisters.set_ebx (r : GeneralRegisters) (value : Nat) : GeneralRegisters :=
  { r with rbx := setterBits r.rbx value 0 32 true }

def GeneralRegisters.set_ebp (r : GeneralRegisters) (value : Nat) : GeneralRegisters :=
  { r with rbp := setterBits r.rbp value 0 32 true }

def GeneralRegisters.set_esi (r : GeneralRegisters) (value : Nat) : GeneralRegisters :=
  { r with rsi := setterBits r.rsi value 0 32 true }

def GeneralRegisters.set_edi (r : GeneralRegisters) (value : Nat) : GeneralRegisters :=
  { r with rdi := setterBits r.rdi value 0 32 true }

def GeneralRegisters.set_r8d (r : GeneralRegisters) (value : Nat) : GeneralRegisters :=
  { r with r8 := setterBits r.r8 value 0 32 true }

def GeneralRegisters.set_r9d (r : GeneralRegisters) (value : Nat) : GeneralRegisters :=
  { r with r9 := setterBits r.r9 value 0 32 true }

def GeneralRegisters.set_r10d (r : GeneralRegisters) (value : Nat) : GeneralRegisters :=
  { r with r10 := setterBits r.r10 value 0 32 true }

def GeneralRegisters.set_r11d (r : GeneralRegisters) (value : Nat) : GeneralRegisters :=
  { r with r11 := setterBits r.r11 value 0 32 true }

def GeneralRegisters.set_r12d (r : GeneralRegisters) (value : Nat) : GeneralRegisters :=
  { r with r12 := setterBits r.r12 value 0 32 true }

def GeneralRegisters.set_r13d (r : GeneralRegisters) (value : Nat) : GeneralRegisters :=
  { r with r13 := setterBits r.r13 value 0 32 true }

def GeneralRegisters.set_r14d (r : GeneralRegisters) (value : Nat) : GeneralRegisters :=
  { r with r14 := setterBits r.r14 value 0 32 true }

def GeneralRegisters.set_r15d (r : GeneralRegisters) (value : Nat) : GeneralRegisters :=
  { r with r15 := setterBits r.r15 value 0 32 true }

/-- A clearing setter at shift 0 stores exactly the value. -/
lemma setterBits_clear_from_zero (x v e2 : Nat) : setterBits x v 0 e2 true = v := by
  simp [setterBits, Nat.shiftLeft_zero]

/-- C5: for every 32-bit view setter and every 32-bit value, after the
set the full 64-bit parent register equals the value zero-extended: the
upper 32 bits of the prior value are erased. -/
theorem set32_zero_extends (r : GeneralRegisters) (v : Nat) (_hv : v < 2 ^ 32) :
    (r.set_eax v).rax = v ∧ (r.set_ecx v).rcx = v ∧ (r.set_edx v).rdx = v ∧
    (r.set_ebx v).rbx = v ∧ (r.set_ebp v).rbp = v ∧ (r.set_esi v).rsi = v ∧
    (r.set_edi v).rdi = v ∧ (r.set_r8d v).r8 = v ∧ (r.set_r9d v).r9 = v ∧
    (r.set_r10d v).r10 = v ∧ (r.set_r11d v).r11 = v ∧ (r.set_r12d v).r12 = v ∧
    (r.set_r13d v).r13 = v ∧ (r.set_r14d v).r14 = v ∧ (r.set_r15d v).r15 = v :=
  ⟨setterBits_clear_from_zero r.rax v 32,
   setterBits_clear_from_zero r.rcx v 32,
   setterBits_clear_from_zero r.rdx v 32,
   setterBits_clear_from_zero r.rbx v 32,
   setterBits_clear_from_zero r.rbp v 32,
   setterBits_clear_from_zero r.rsi v 32,
   setterBits_clear_from_zero r.rdi v 32,
   setterBits_clear_from_zero r.r8 v 32,
   setterBits_clear_from_zero r.r9 v 32,
   setterBits_clear_from_zero r.r10 v 32,
   setterBits_clear_from_zero r.r11 v 32,
   setterBits_clear_from_zero r.r12 v 32,
   setterBits_clear_from_zero r.r13 v 32,
   setterBits_clear_from_zero r.r14 v 32,
   setterBits_clear_from_zero r.r15 v 32⟩

/-- Witness for C5 on a concrete register file whose `rax` has upper bits
set: setting the "eax" view to 7 leaves `rax` equal to 7. -/
theorem set32_zero_extends_witness :
    (GeneralRegisters.set_eax
      ⟨18446744073709551615, 1, 2, 3, 4, 5, 6, 7, 8, 9, 10, 11, 12, 13, 14, 15⟩ 7).rax = 7 :=
  (set32_zero_extends
    ⟨18446744073709551615, 1, 2, 3, 4, 5, 6, 7, 8, 9, 10, 11, 12, 13, 14, 15⟩ 7
    (by norm_num)).1

/-! ## 16-bit, 8-bit and high-byte setters (`clear_other_bits = false`) -/
/-- The 16-bit view setters, bits 0..16 of the backing field. -/
def GeneralRegisters.set_ax (r : GeneralRegisters) (value : Nat) : GeneralRegisters :=
  { r with rax := setterBits r.rax value 0 16 false }

def GeneralRegisters.set_cx (r : GeneralRegisters) (value : Nat) : GeneralRegisters :=
  { r with rcx := setterBits r.rcx value 0 16 false }

def GeneralRegisters.set_dx (r : GeneralRegisters) (value : Nat) : GeneralRegisters :=
  { r with rdx := setterBits r.rdx value 0 16 false }

def GeneralRegisters.set_bx (r : GeneralRegisters) (value : Nat) : GeneralRegisters :=
  { r with rbx := setterBits r.rbx value 0 16 false }

def GeneralRegisters.set_bp (r : GeneralRegisters) (value : Nat) : GeneralRegisters :=
  { r with rbp := setterBits r.rbp value 0 16 false }

def GeneralRegisters.set_si (r : GeneralRegisters) (value : Nat) : GeneralRegisters :=
  { r with rsi := setterBits r.rsi value 0 16 false }

def GeneralRegisters.set_di (r : GeneralRegisters) (value : Nat) : GeneralRegisters :=
  { r with rdi := setterBits r.rdi value 0 16 false }

def GeneralRegisters.set_r8w (r : GeneralRegisters) (value : Nat) : GeneralRegisters :=
  { r with r8 := setterBits r.r8 value 0 16 false }

def GeneralRegisters.set_r9w (r : GeneralRegisters) (value : Nat) : GeneralRegisters :=
  { r with r9 := setterBits r.r9 value 0 16 false }

def GeneralRegisters.set_r10w (r : GeneralRegisters) (value : Nat) : GeneralRegisters :=
  { r with r10 := setterBits r.r10 value 0 16 false }

def GeneralRegisters.set_r11w (r : GeneralRegisters) (value : Nat) : GeneralRegisters :=
  { r with r11 := setterBits r.r11 value 0 16 false }

def GeneralRegisters.set_r12w (r : GeneralRegisters) (value : Nat) : GeneralRegisters :=
  { r with r12 := setterBits r.r12 value 0 16 false }

def GeneralRegisters.set_r13w (r : GeneralRegisters) (value : Nat) : GeneralRegisters :=
  { r with r13 := setterBits r.r13 value 0 16 false }

def GeneralRegisters.set_r14w (r : GeneralRegisters) (value : Nat) : GeneralRegisters :=
  { r with r14 := setterBits r.r14 value 0 16 false }

def GeneralRegisters.set_r15w (r : GeneralRegisters) (value : Nat) : GeneralRegisters :=
  { r with r15 := setterBits r.r15 value 0 16 false }

/-- The low 8-bit view setters, bits 0..8 of the backing field. -/
def GeneralRegisters.set_al (r : GeneralRegisters) (value : Nat) : GeneralRegisters :=
  { r with rax := setterBits r.rax value 0 8 false }

def GeneralRegisters.set_cl (r : GeneralRegisters) (value : Nat) : GeneralRegisters :=
  { r with rcx := setterBits r.rcx value 0 8 false }

def GeneralRegisters.set_dl (r : GeneralRegisters) (value : Nat) : GeneralRegisters :=
  { r with rdx := setterBits r.rdx value 0 8 false }

def GeneralRegisters.set_bl (r : GeneralRegisters) (value : Nat) : GeneralRegisters :=
  { r with rbx := setterBits r.rbx value 0 8 false }

def GeneralRegisters.set_bpl (r : GeneralRegisters) (value : Nat) : GeneralRegisters :=
  { r with rbp := setterBits r.rbp value 0 8 false }

def GeneralRegisters.set_sil (r : GeneralRegisters) (value : Nat) : GeneralRegisters :=
  { r with rsi := setterBits r.rsi value 0 8 false }

def GeneralRegisters.set_dil (r : GeneralRegisters) (value : Nat) : GeneralRegisters :=
  { r with rdi := setterBits r.rdi value 0 8 false }

def GeneralRegisters.set_r8b (r : GeneralRegisters) (value : Nat) : GeneralRegisters :=
  { r with r8 := setterBits r.r8 value 0 8 false }

def GeneralRegisters.set_r9b (r : GeneralRegisters) (value : Nat) : GeneralRegisters :=
  { r with r9 := setterBits r.r9 value 0 8 false }

def GeneralRegisters.set_r10b (r : GeneralRegisters) (value : Nat) : GeneralRegisters :=
  { r with r10 := setterBits r.r10 value 0 8 false }

def GeneralRegisters.set_r11b (r : GeneralRegisters) (value : Nat) : GeneralRegisters :=
  { r with r11 := setterBits r.r11 value 0 8 false }

def GeneralRegisters.set_r12b (r : GeneralRegisters) (value : Nat) : GeneralRegisters :=
  { r with r12 := setterBits r.r12 value 0 8 false }

def GeneralRegisters.set_r13b (r : GeneralRegisters) (value : Nat) : GeneralRegisters :=
  { r with r13 := setterBits r.r13 value 0 8 false }

def GeneralRegisters.set_r14b (r : GeneralRegisters) (value : Nat) : GeneralRegisters :=
  { r with r14 := setterBits r.r14 value 0 8 false }

def GeneralRegisters.set_r15b (r : GeneralRegisters) (value : Nat) : GeneralRegisters :=
  { r with r15 := setterBits r.r15 value 0 8 false }

/-- The high-byte view setters, bits 8..16 of the backing field. -/
def GeneralRegisters.set_ah (r : GeneralRegisters) (value : Nat) : GeneralRegisters :=
  { r with rax := setterBits r.rax value 8 16 false }

def GeneralRegisters.set_ch (r : GeneralRegisters) (value : Nat) : GeneralRegisters :=
  { r with rcx := setterBits r.rcx value 8 16 false }

def GeneralRegisters.set_dh (r : GeneralRegisters) (value : Nat) : GeneralRegisters :=
  { r with rdx := setterBits r.rdx value 8 16 false }

def GeneralRegisters.set_bh (r : GeneralRegisters) (value : Nat) : GeneralRegisters :=
  { r with rbx := setterBits r.rbx value 8 16 false }

/-- Enumeration of the 34 sub-width register views whose setters are
generated with `clear_other_bits = false`: the fifteen 16-bit views, the
fifteen low 8-bit views, and the four high-byte views. -/
inductive SubView where
  | ax
  | cx
  | dx
  | bx
  | bp
  | si
  | di
  | r8w
  | r9w
  | r10w
  | r11w
  | r12w
  | r13w
  | r14w
  | r15w
  | al
  | cl
  | dl
  | bl
  | bpl
  | sil
  | dil
  | r8b
  | r9b
  | r10b
  | r11b
  | r12b
  | r13b
  | r14b
  | r15b
  | ah
  | ch
  | dh
  | bh
deriving DecidableEq

/-- The `bits_start` parameter of the view's generated accessor pair. -/
def SubView.bitsStart : SubView → Nat
  | .ax => 0
  | .cx => 0
  | .dx => 0
  | .bx => 0
  | .bp => 0
  | .si => 0
  | .di => 0
  | .r8w => 0
  | .r9w => 0
  | .r10w => 0
  | .r11w => 0
  | .r12w => 0
  | .r13w => 0
  | .r14w => 0
  | .r15w => 0
  | .al => 0
  | .cl => 0
  | .dl => 0
  | .bl => 0
  | .bpl => 0
  | .sil => 0
  | .dil => 0
  | .r8b => 0
  | .r9b => 0
  | .r10b => 0
  | .r11b => 0
  | .r12b => 0
  | .r13b => 0
  | .r14b => 0
  | .r15b => 0
  | .ah => 8
  | .ch => 8
  | .dh => 8
  | .bh => 8

/-- The `bits_end` parameter of the view's generated accessor pair. -/
def SubView.bitsEnd : SubView → Nat
  | .ax => 16
  | .cx => 16
  | .dx => 16
  | .bx => 16
  | .bp => 16
  | .si => 16
  | .di => 16
  | .r8w => 16
  | .r9w => 16
  | .r10w => 16
  | .r11w => 16
  | .r12w => 16
  | .r13w => 16
  | .r14w => 16
  | .r15w => 16
  | .al => 8
  | .cl => 8
  | .dl => 8
  | .bl => 8
  | .bpl => 8
  | .sil => 8
  | .dil => 8
  | .r8b => 8
  | .r9b => 8
  | .r10b => 8
  | .r11b => 8
  | .r12b => 8
  | .r13b => 8
  | .r14b => 8
  | .r15b => 8
  | .ah => 16
  | .ch => 16
  | .dh => 16
  | .bh => 16

/-- The full 64-bit parent register backing the view. -/
def SubView.parent : SubView → GeneralRegisters → Nat
  | .ax, r => r.rax
  | .cx, r => r.rcx
  | .dx, r => r.rdx
  | .bx, r => r.rbx
  | .bp, r => r.rbp
  | .si, r => r.rsi
  | .di, r => r.rdi
  | .r8w, r => r.r8
  | .r9w, r => r.r9
  | .r10w, r => r.r10
  | .r11w, r => r.r11
  | .r12w, r => r.r12
  | .r13w, r => r.r13
  | .r14w, r => r.r14
  | .r15w, r => r.r15
  | .al, r => r.rax
  | .cl, r => r.rcx
  | .dl, r => r.rdx
  | .bl, r => r.rbx
  | .bpl, r => r.rbp
  | .sil, r => r.rsi
  | .dil, r => r.rdi
  | .r8b, r => r.r8
  | .r9b, r => r.r9
  | .r10b, r => r.r10
  | .r11b, r => r.r11
  | .r12b, r => r.r12
  | .r13b, r => r.r13
  | .r14b, r => r.r14
  | .r15b, r => r.r15
  | .ah, r => r.rax
  | .ch, r => r.rcx
  | .dh, r => r.rdx
  | .bh, r => r.rbx

/-- Dispatch to the view's named setter. -/
def SubView.set : SubView → GeneralRegisters → Nat → GeneralRegisters
  | .ax, r, v => r.set_ax v
  | .cx, r, v => r.set_cx v
  | .dx, r, v => r.set_dx v
  | .bx, r, v => r.set_bx v
  | .bp, r, v => r.set_bp v
  | .si, r, v => r.set_si v
  | .di, r, v => r.set_di v
  | .r8w, r, v => r.set_r8w v
  | .r9w, r, v => r.set_r9w v
  | .r10w, r, v => r.set_r10w v
  | .r11w, r, v => r.set_r11w v
  | .r12w, r, v => r.set_r12w v
  | .r13w, r, v => r.set_r13w v
  | .r14w, r, v => r.set_r14w v
  | .r15w, r, v => r.set_r15w v
  | .al, r, v => r.set_al v
  | .cl, r, v => r.set_cl v
  | .dl, r, v => r.set_dl v
  | .bl, r, v => r.set_bl v
  | .bpl, r, v => r.set_bpl v
  | .sil, r, v => r.set_sil v
  | .dil, r, v => r.set_dil v
  | .r8b, r, v => r.set_r8b v
  | .r9b, r, v => r.set_r9b v
  | .r10b, r, v => r.set_r10b v
  | .r11b, r, v => r.set_r11b v
  | .r12b, r, v => r.set_r12b v
  | .r13b, r, v => r.set_r13b v
  | .r14b, r, v => r.set_r14b v
  | .r15b, r, v => r.set_r15b v
  | .ah, r, v => r.set_ah v
  | .ch, r, v => r.set_ch v
  | .dh, r, v => r.set_dh v
  | .bh, r, v => r.set_bh v

/-- A non-clearing setter leaves every bit of the backing `u64` outside
the range `bits_start..bits_end` unchanged. -/
lemma setterBits_testBit_outside (old v s e2 i : Nat) (hold : old < 2 ^ 64)
    (hv : v < 2 ^ (e2 - s)) (he2 : e2 ≤ 64) (hse : s ≤ e2)
    (hi : i < s ∨ e2 ≤ i) :
    (setterBits old v s e2 false).testBit i = old.testBit i := by
  have h64 : (1 <<< 64 : Nat) - 1 = 2 ^ 64 - 1 := by rw [Nat.shiftLeft_eq, one_mul]
  have hm : (1 <<< (e2 - s) : Nat) - 1 = 2 ^ (e2 - s) - 1 := by
    rw [Nat.shiftLeft_eq, one_mul]
  rw [setterBits, if_neg (by simp), h64, hm]
  simp only [Nat.testBit_or, Nat.testBit_and, Nat.testBit_xor, Nat.testBit_shiftLeft,
    Nat.testBit_two_pow_sub_one]
  rcases hi with hi | hi
  · have h1 : ¬ (i ≥ s) := by omega
    have h2 : i < 64 := by omega
    simp [h1, h2]
  · have hvb : v.testBit (i - s) = false :=
      Nat.testBit_lt_two_pow
        (lt_of_lt_of_le hv (Nat.pow_le_pow_right (by norm_num) (by omega)))
    have h3 : ¬ (i - s < e2 - s) := by omega
    by_cases h4 : i < 64
    · simp [hvb, h3, h4, show i ≥ s by omega]
    · have hob : old.testBit i = false :=
        Nat.testBit_lt_two_pow
          (lt_of_lt_of_le hold (Nat.pow_le_pow_right (by norm_num) (by omega)))
      simp [hvb, h3, h4, hob]

/-- C6: for every 16-bit, low 8-bit, or high-byte view setter and every
value of the view's width, setting the view changes only the bits of the
parent 64-bit register inside the view's bit range: every bit outside
the range keeps its prior value. -/
theorem subwidth_set_preserves_outside (sv : SubView) (r : GeneralRegisters) (v i : Nat)
    (hr : sv.parent r < 2 ^ 64) (hv : v < 2 ^ (sv.bitsEnd - sv.bitsStart))
    (hi : i < sv.bitsStart ∨ sv.bitsEnd ≤ i) :
    (sv.parent (sv.set r v)).testBit i = (sv.parent r).testBit i := by
  cases sv <;>
    exact setterBits_testBit_outside _ v _ _ i hr hv (by norm_num) (by norm_num) hi

/-- Witness for C6: setting the "ah" view (bits 8..16 of `rax`) on a
concrete register file does not change bit 0 of `rax`. -/
theorem subwidth_set_preserves_outside_witness :
    (SubView.parent SubView.ah
        (SubView.set SubView.ah ⟨258, 0, 0, 0, 0, 0, 0, 0, 0, 0, 0, 0, 0, 0, 0, 0⟩ 5)).testBit 0 =
      (SubView.parent SubView.ah ⟨258, 0, 0, 0, 0, 0, 0, 0, 0, 0, 0, 0, 0, 0, 0, 0⟩).testBit 0 :=
  subwidth_set_preserves_outside SubView.ah
    ⟨258, 0, 0, 0, 0, 0, 0, 0, 0, 0, 0, 0, 0, 0, 0, 0⟩ 5 0
    (by decide) (by decide) (Or.inl (by decide))

/-! ## Register diff (`src/regs.rs`, `src/regs/diff.rs`) -/

/-- The names of the general-purpose registers in opcode-encoding order,
`GeneralRegisters::REGISTER_NAMES`. -/
def GeneralRegisters.REGISTER_NAMES : List String :=
  ["rax", "rcx", "rdx", "rbx", "rsp", "rbp", "rsi", "rdi",
   "r8", "r9", "r10", "r11", "r12", "r13", "r14", "r15"]

/-- Embedding of `GeneralRegisters::register_name`: the name of the
register with the given index. The Rust code indexes the array directly
(and would panic out of range); it is only called with indices below 16,
where `getD` agrees with the array access. -/
def GeneralRegisters.register_name (index : Nat) : String :=
  GeneralRegisters.REGISTER_NAMES.getD index ""

/-- The comparison of two register-file snapshots, the
`GeneralRegistersDiff` struct in `src/regs/diff.rs`. -/
structure GeneralRegistersDiff where
  old : GeneralRegisters
  new : GeneralRegisters

/-- Embedding of `GeneralRegistersDiff::is_same`: whole-struct equality
of the two snapshots (the derived `PartialEq`, which compares every
field, the unused rsp slot included). -/
def GeneralRegistersDiff.is_same (d : GeneralRegistersDiff) : Bool :=
  d.old == d.new

/-- Embedding of the `Debug` formatting loop of `GeneralRegistersDiff`:
for each index 0–15 except the rsp index 4, compare the two snapshots
through `get_reg_of_index` and emit the register's name when the values
differ. The embedding returns the list of emitted field names (the
formatted "old -> new" hex values attached to each name are omitted: the
claims are about which registers are listed). -/
def GeneralRegistersDiff.debug_fields (d : GeneralRegistersDiff) : List String :=
  (List.range 16).filterMap fun i =>
    if i = 4 then none
    else
      match d.old.get_reg_of_index i, d.new.get_reg_of_index i with
      | some o, some n => if o ≠ n then some (GeneralRegisters.register_name i) else none
      | _, _ => none

/-- C9: the diff debug output lists exactly the registers, over indices
0–3 and 5–15, whose values differ: two identical snapshots produce an
empty listing; if only `rbx` among the tracked registers differs the
listing is exactly ["rbx"], whatever the two unused rsp slots hold; and
"rsp" never appears in the listing. -/
theorem diff_debug_fields_spec (old new : GeneralRegisters) :
    (old = new → (GeneralRegistersDiff.mk old new).debug_fields = []) ∧
    (old.rax = new.rax ∧ old.rcx = new.rcx ∧ old.rdx = new.rdx ∧ old.rbx ≠ new.rbx ∧
      old.rbp = new.rbp ∧ old.rsi = new.rsi ∧ old.rdi = new.rdi ∧ old.r8 = new.r8 ∧
      old.r9 = new.r9 ∧ old.r10 = new.r10 ∧ old.r11 = new.r11 ∧ old.r12 = new.r12 ∧
      old.r13 = new.r13 ∧ old.r14 = new.r14 ∧ old.r15 = new.r15 →
      (GeneralRegistersDiff.mk old new).debug_fields = ["rbx"]) ∧
    "rsp" ∉ (GeneralRegistersDiff.mk old new).debug_fields := by
  have hr : List.range 16 = [0, 1, 2, 3, 4, 5, 6, 7, 8, 9, 10, 11, 12, 13, 14, 15] := rfl
  refine ⟨?_, ?_, ?_⟩
  · intro h
    subst h
    rw [GeneralRegistersDiff.debug_fields, hr]
    simp [GeneralRegisters.get_reg_of_index]
  · rintro ⟨h0, h1, h2, hb, h5, h6, h7, h8, h9, h10, h11, h12, h13, h14, h15⟩
    have hname : GeneralRegisters.register_name 3 = "rbx" := rfl
    rw [GeneralRegistersDiff.debug_fields, hr]
    simp [GeneralRegisters.get_reg_of_index, hname,
      h0, h1, h2, hb, h5, h6, h7, h8, h9, h10, h11, h12, h13, h14, h15]
  · intro hmem
    rw [GeneralRegistersDiff.debug_fields, List.mem_filterMap] at hmem
    obtain ⟨i, hi, hfi⟩ := hmem
    rw [List.mem_range] at hi
    by_cases h4 : i = 4
    · subst h4
      simp at hfi
    · rw [if_neg h4] at hfi
      interval_cases i <;>
        simp_all [GeneralRegisters.get_reg_of_index, GeneralRegisters.register_name,
          GeneralRegisters.REGISTER_NAMES]

/-- Witness for C9 on concrete snapshots that differ exactly in `rbx` and
in the unused rsp slot. -/
theorem diff_debug_fields_spec_witness :
    (GeneralRegistersDiff.mk ⟨1, 2, 3, 4, 100, 5, 6, 7, 8, 9, 10, 11, 12, 13, 14, 15⟩
        ⟨1, 2, 3, 99, 200, 5, 6, 7, 8, 9, 10, 11, 12, 13, 14, 15⟩).debug_fields = ["rbx"] :=
  (diff_debug_fields_spec ⟨1, 2, 3, 4, 100, 5, 6, 7, 8, 9, 10, 11, 12, 13, 14, 15⟩
    ⟨1, 2, 3, 99, 200, 5, 6, 7, 8, 9, 10, 11, 12, 13, 14, 15⟩).2.1 (by decide)

/-! ## `PhysFrame` (`src/frame.rs`) -/

/-- The error kind produced by `PhysFrame::alloc` through
`ax_err_type!(NoMemory, ...)`: the `axerrno` error value is the plain
`NoMemory` variant (the message string is only logged). -/
inductive AxError where
  | NoMemory
deriving DecidableEq

/-- A 4K-sized physical memory page, the `PhysFrame` struct in
`src/frame.rs`: an optional start address, `none` for the placeholder
produced by `PhysFrame::uninit`. Addresses are embedded as `Nat`. -/
structure PhysFrame where
  start_paddr : Option Nat
deriving DecidableEq

/-- Embedding of `PhysFrame::alloc`. The host allocator call
`PhysFrameIf::alloc_frame` is the `alloc_frame` argument. A `none` from
the allocator becomes the `NoMemory` error; otherwise the code asserts
the returned address is nonzero (the failed assertion, a panic, is the
outer `none`) and stores it in a fresh frame. -/
def PhysFrame.alloc (alloc_frame : Option Nat) : Option (Except AxError PhysFrame) :=
  match alloc_frame with
  | none => some (.error .NoMemory)
  | some start_paddr =>
      if start_paddr = 0 then none
      else some (.ok { start_paddr := some start_paddr })

/-- C8: when the host allocator returns no page, `alloc` returns the
`NoMemory` error; whenever `alloc` returns a frame, the frame's stored
start address is the allocated address and it is not the null physical
address (a zero address instead trips the assertion and never produces a
frame). -/
theorem phys_frame_alloc_spec :
    PhysFrame.alloc none = some (.error AxError.NoMemory) ∧
    ∀ a f, PhysFrame.alloc (some a) = some (.ok f) →
      ∃ p, f.start_paddr = some p ∧ p ≠ 0 := by
  refine ⟨rfl, fun a f h => ?_⟩
  by_cases ha : a = 0
  · subst ha
    simp [PhysFrame.alloc] at h
  · rw [PhysFrame.alloc, if_neg ha] at h
    obtain rfl : PhysFrame.mk (some a) = f := by
      simpa using h
    exact ⟨a, rfl, ha⟩

/-- Witness for C8: allocating at the concrete host address 4096 yields a
frame holding the nonzero address 4096. -/
theorem phys_frame_alloc_spec_witness :
    ∃ p, (PhysFrame.mk (some 4096)).start_paddr = some p ∧ p ≠ 0 :=
  phys_frame_alloc_spec.2 4096 (PhysFrame.mk (some 4096)) rfl
